import Mathlib

/-
Verification of the FITAI LLM orchestration core (llm.py, tools.py).

The Python source is shallowly embedded: pure computations become Lean
functions, the external model and search provider become explicit oracle
parameters, the try/except discipline becomes an explicit result type
distinguishing a normal return from a propagating exception, and the
caching and agent-executor machinery that lives in third-party libraries
is modelled from the specification where the repository source does not
contain it.
-/

/-- Result of an embedded Python call: either a normal return value or an
exception that propagated out of the function uncaught. -/
inductive PyResult (α : Type) where
  | normal (v : α)
  | raised (exc : String)
deriving DecidableEq

/-- A Python exception: its rendered text and whether its class derives
from `Exception` (so that `except Exception` catches it). `SystemExit`
derives only from `BaseException` and is not catchable that way. -/
structure PyExc where
  message : String
  catchable : Bool
deriving DecidableEq

/-- NameError for an undefined name, an `Exception` subclass. -/
def nameError (n : String) : PyExc :=
  ⟨"name \x27" ++ n ++ "\x27 is not defined", true⟩

/-- SyntaxError, an `Exception` subclass. -/
def syntaxError : PyExc := ⟨"invalid syntax", true⟩

/-- TypeError, an `Exception` subclass. -/
def typeError (m : String) : PyExc := ⟨m, true⟩

/-- RecursionError, an `Exception` subclass, for exhausted evaluation
depth. -/
def recursionError : PyExc :=
  ⟨"maximum recursion depth exceeded", true⟩

/-- SystemExit: raised by calling `exit`/`quit`; derives from
`BaseException` only, so `except Exception` does not catch it. -/
def systemExit : PyExc := ⟨"SystemExit", false⟩

/-- Values the modelled `eval` can produce: integers, strings, booleans,
and the module/builtin objects resolvable in the tools.py namespace. -/
inductive PyVal where
  | int (n : Int)
  | str (s : String)
  | bool (b : Bool)
  | obj (name : String)
deriving DecidableEq

/-- Names resolvable when `eval` runs inside tools.py: the module globals
of tools.py plus the `exit`/`quit` builtins. Any other name raises
NameError. -/
def evalNamespace : List String :=
  ["os", "load_dotenv", "SerpAPIWrapper", "tool", "serpapi",
   "google_search_tool", "calculator", "exit", "quit"]

/-- The builtins whose call raises `SystemExit`. -/
def raisesSystemExit (n : String) : Bool :=
  n == "exit" || n == "quit"

/-- Tokens of the expression fragment of Python modelled for the
calculator: numerals, `+`, `-`, `*`, identifiers, single-quoted string
literals, and parentheses. -/
inductive Tok where
  | num (n : Int)
  | plus
  | minus
  | star
  | ident (s : String)
  | strlit (s : String)
  | lparen
  | rparen
deriving DecidableEq

/-- Lexer state: between tokens, inside a numeral, inside an identifier,
or inside a single-quoted string literal. -/
inductive LexAcc where
  | start
  | num (n : Int)
  | ident (s : String)
  | strOpen (s : String)
deriving DecidableEq

/-- Emit the token of a finished lexeme, if any. -/
def lexFlush : LexAcc → List Tok
  | .start => []
  | .num n => [.num n]
  | .ident s => [.ident s]
  | .strOpen _ => []

/-- Tokenize the character list of an expression the way the CPython
tokenizer treats this fragment: adjacent digits form a numeral, letters,
digits and underscores form an identifier (a digit directly followed by a
letter is a syntax error), a single quote opens a string literal that runs
to the closing quote, whitespace separates lexemes, and any other
character outside the fragment is a syntax error. -/
def lexLoop : LexAcc → List Char → Except PyExc (List Tok)
  | .strOpen _, [] => .error syntaxError
  | .strOpen s, c :: r =>
    if c == Char.ofNat 39 then
      match lexLoop .start r with
      | .error e => .error e
      | .ok ts => .ok (Tok.strlit s :: ts)
    else lexLoop (.strOpen (s.push c)) r
  | acc, [] => .ok (lexFlush acc)
  | acc, c :: r =>
    if c == Char.ofNat 39 then
      match lexLoop (.strOpen "") r with
      | .error e => .error e
      | .ok ts => .ok (lexFlush acc ++ ts)
    else if c.isDigit then
      match acc with
      | .num n => lexLoop (.num (n * 10 + (c.toNat - 48))) r
      | .ident s => lexLoop (.ident (s.push c)) r
      | _ => lexLoop (.num (c.toNat - 48)) r
    else if c.isAlpha || c == Char.ofNat 95 then
      match acc with
      | .ident s => lexLoop (.ident (s.push c)) r
      | .num _ => .error syntaxError
      | _ => lexLoop (.ident (String.singleton c)) r
    else if c.isWhitespace then
      match lexLoop .start r with
      | .error e => .error e
      | .ok ts => .ok (lexFlush acc ++ ts)
    else
      match
        (if c == Char.ofNat 43 then some Tok.plus
         else if c == Char.ofNat 45 then some Tok.minus
         else if c == Char.ofNat 42 then some Tok.star
         else if c == Char.ofNat 40 then some Tok.lparen
         else if c == Char.ofNat 41 then some Tok.rparen
         else none) with
      | none => .error syntaxError
      | some t =>
        match lexLoop .start r with
        | .error e => .error e
        | .ok ts => .ok (lexFlush acc ++ t :: ts)

/-- Python truthiness, for `not`. -/
def pyTruthy : PyVal → Bool
  | .int n => n != 0
  | .str s => s.length != 0
  | .bool b => b
  | .obj _ => true

/-- Numeric coercion: booleans count as 0/1 in arithmetic. -/
def pyNumOf : PyVal → Option Int
  | .int n => some n
  | .bool b => some (cond b 1 0)
  | _ => none

/-- Python `+`: numeric addition or string concatenation, TypeError
otherwise. -/
def pyAdd (a b : PyVal) : Except PyExc PyVal :=
  match a, b with
  | .str x, .str y => .ok (.str (x ++ y))
  | _, _ =>
    match pyNumOf a, pyNumOf b with
    | some x, some y => .ok (.int (x + y))
    | _, _ => .error (typeError "unsupported operand type(s) for +")

/-- Python binary `-`. -/
def pySub (a b : PyVal) : Except PyExc PyVal :=
  match pyNumOf a, pyNumOf b with
  | some x, some y => .ok (.int (x - y))
  | _, _ => .error (typeError "unsupported operand type(s) for -")

/-- Repeat a string a number of times, Python `s * n`. -/
def strRepeat (x : String) : Nat → String
  | 0 => ""
  | n + 1 => x ++ strRepeat x n

/-- Python `*`: numeric product or string repetition. -/
def pyMul (a b : PyVal) : Except PyExc PyVal :=
  match a, b with
  | .str x, _ =>
    match pyNumOf b with
    | some y => .ok (.str (strRepeat x y.toNat))
    | none => .error (typeError "unsupported operand type(s) for *")
  | _, .str y =>
    match pyNumOf a with
    | some x => .ok (.str (strRepeat y x.toNat))
    | none => .error (typeError "unsupported operand type(s) for *")
  | _, _ =>
    match pyNumOf a, pyNumOf b with
    | some x, some y => .ok (.int (x * y))
    | _, _ => .error (typeError "unsupported operand type(s) for *")

/-- Python unary `-`. -/
def pyNeg (a : PyVal) : Except PyExc PyVal :=
  match pyNumOf a with
  | some x => .ok (.int (-x))
  | none => .error (typeError "bad operand type for unary -")

/-- Python unary `+`. -/
def pyPos (a : PyVal) : Except PyExc PyVal :=
  match pyNumOf a with
  | some x => .ok (.int x)
  | none => .error (typeError "bad operand type for unary +")

/-- Calling a value with no argument: `exit()`/`quit()` raise
`SystemExit`; other objects and plain values are not usefully callable
and raise `TypeError` (also an over-strict call on module functions,
which lack their required argument). -/
def pyCall (v : PyVal) : Except PyExc PyVal :=
  match v with
  | .obj n =>
    if raisesSystemExit n then .error systemExit
    else .error (typeError "call failed")
  | _ => .error (typeError "object is not callable")

mutual

/-- Evaluate a `not`-expression: the keyword `not` applied to an
expression, or an arithmetic sum. Fuel models the interpreter recursion
limit. -/
def evalNotE : Nat → List Tok → Except PyExc (PyVal × List Tok)
  | 0, _ => .error recursionError
  | f + 1, Tok.ident "not" :: r =>
    match evalNotE f r with
    | .error e => .error e
    | .ok (v, rest) => .ok (.bool (!pyTruthy v), rest)
  | f + 1, toks => evalSum f toks

/-- Evaluate a sum: a product followed by `+`/`-` chains. -/
def evalSum : Nat → List Tok → Except PyExc (PyVal × List Tok)
  | 0, _ => .error recursionError
  | f + 1, toks =>
    match evalMul f toks with
    | .error e => .error e
    | .ok (v, rest) => evalSumLoop f v rest

/-- Fold the remaining `+`/`-` chain of a sum, left associated. -/
def evalSumLoop : Nat → PyVal → List Tok → Except PyExc (PyVal × List Tok)
  | 0, _, _ => .error recursionError
  | f + 1, acc, Tok.plus :: r =>
    match evalMul f r with
    | .error e => .error e
    | .ok (v, rest) =>
      match pyAdd acc v with
      | .error e => .error e
      | .ok w => evalSumLoop f w rest
  | f + 1, acc, Tok.minus :: r =>
    match evalMul f r with
    | .error e => .error e
    | .ok (v, rest) =>
      match pySub acc v with
      | .error e => .error e
      | .ok w => evalSumLoop f w rest
  | _ + 1, acc, toks => .ok (acc, toks)

/-- Evaluate a product: a unary expression followed by `*` chains. -/
def evalMul : Nat → List Tok → Except PyExc (PyVal × List Tok)
  | 0, _ => .error recursionError
  | f + 1, toks =>
    match evalUnary f toks with
    | .error e => .error e
    | .ok (v, rest) => evalMulLoop f v rest

/-- Fold the remaining `*` chain of a product, left associated. -/
def evalMulLoop : Nat → PyVal → List Tok → Except PyExc (PyVal × List Tok)
  | 0, _, _ => .error recursionError
  | f + 1, acc, Tok.star :: r =>
    match evalUnary f r with
    | .error e => .error e
    | .ok (v, rest) =>
      match pyMul acc v with
      | .error e => .error e
      | .ok w => evalMulLoop f w rest
  | _ + 1, acc, toks => .ok (acc, toks)

/-- Evaluate unary signs applied to a postfix expression. -/
def evalUnary : Nat → List Tok → Except PyExc (PyVal × List Tok)
  | 0, _ => .error recursionError
  | f + 1, Tok.minus :: r =>
    match evalUnary f r with
    | .error e => .error e
    | .ok (v, rest) =>
      match pyNeg v with
      | .error e => .error e
      | .ok w => .ok (w, rest)
  | f + 1, Tok.plus :: r =>
    match evalUnary f r with
    | .error e => .error e
    | .ok (v, rest) =>
      match pyPos v with
      | .error e => .error e
      | .ok w => .ok (w, rest)
  | f + 1, toks => evalPostfix f toks

/-- Evaluate an atom followed by call suffixes. -/
def evalPostfix : Nat → List Tok → Except PyExc (PyVal × List Tok)
  | 0, _ => .error recursionError
  | f + 1, toks =>
    match evalAtom f toks with
    | .error e => .error e
    | .ok (v, rest) => evalCallLoop f v rest

/-- Apply `()` call suffixes: an empty or single-argument call; calling
`exit`/`quit` raises `SystemExit` whatever the argument. -/
def evalCallLoop : Nat → PyVal → List Tok → Except PyExc (PyVal × List Tok)
  | 0, _, _ => .error recursionError
  | f + 1, v, Tok.lparen :: Tok.rparen :: r =>
    match pyCall v with
    | .error e => .error e
    | .ok w => evalCallLoop f w r
  | f + 1, v, Tok.lparen :: r =>
    match evalNotE f r with
    | .error e => .error e
    | .ok (_, Tok.rparen :: rest) =>
      match pyCall v with
      | .error e => .error e
      | .ok w => evalCallLoop f w rest
    | .ok _ => .error syntaxError
  | _ + 1, v, toks => .ok (v, toks)

/-- Evaluate an atom: a numeral, a string literal, `True`/`False`, a name
looked up in the namespace, or a parenthesized expression. -/
def evalAtom : Nat → List Tok → Except PyExc (PyVal × List Tok)
  | 0, _ => .error recursionError
  | _ + 1, Tok.num n :: r => .ok (.int n, r)
  | _ + 1, Tok.strlit s :: r => .ok (.str s, r)
  | _ + 1, Tok.ident n :: r =>
    if n == "True" then .ok (.bool true, r)
    else if n == "False" then .ok (.bool false, r)
    else if evalNamespace.contains n then .ok (.obj n, r)
    else .error (nameError n)
  | f + 1, Tok.lparen :: r =>
    match evalNotE f r with
    | .error e => .error e
    | .ok (v, Tok.rparen :: rest) => .ok (v, rest)
    | .ok _ => .error syntaxError
  | _ + 1, _ => .error syntaxError

end

/-- Model of the Python builtin `eval` as tools.py invokes it, on the
expression fragment relevant to a calculator: integer arithmetic, string
literals, names resolved against the tools.py namespace, the `not`
keyword, and calls (through which `exit()` raises `SystemExit`). The
result is the evaluated value or the exception `eval` raises, tagged with
whether `except Exception` can catch it. -/
def pyEval (exp : String) : Except PyExc PyVal :=
  match lexLoop .start exp.data with
  | .error e => .error e
  | .ok toks =>
    match evalNotE (10 * exp.length + 10) toks with
    | .error e => .error e
    | .ok (v, []) => .ok v
    | .ok (_, _ :: _) => .error syntaxError

/-- Outcome of the calculator tool: the evaluated value, or the text of the
caught exception that the source returns via `return str(e)`. -/
inductive CalcRet where
  | value (v : PyVal)
  | evalError (msg : String)
deriving DecidableEq

/-- Embedding of `tools.calculator`: `eval(exp)` inside `try`/`except
Exception` whose handler returns `str(e)`. An `Exception`-class error is
caught and returned as text; an exception outside the `Exception` class,
such as `SystemExit`, propagates out of the function. -/
def calculator (exp : String) : PyResult CalcRet :=
  match pyEval exp with
  | .ok v => .normal (.value v)
  | .error e =>
    if e.catchable then .normal (.evalError e.message)
    else .raised e.message

/-- Python dictionaries with string keys and string values, as association
lists in insertion order (the shape produced by `model_dump()`). -/
abbrev PyDict := List (String × String)

/-- Look a key up in a dictionary. -/
def dictLookup (d : PyDict) (k : String) : Option String :=
  (d.find? (fun p => p.1 == k)).map (fun p => p.2)

/-- Membership test, Python `k in d`. -/
def dictHasKey (d : PyDict) (k : String) : Bool :=
  (dictLookup d k).isSome

/-- Python `d.update({k: v})`: replace in place when present, append when
absent. -/
def dictUpdate (d : PyDict) (k v : String) : PyDict :=
  if dictHasKey d k then d.map (fun p => if p.1 = k then (k, v) else p)
  else d ++ [(k, v)]

/-- Python `del d[k]`. -/
def dictDel (d : PyDict) (k : String) : PyDict :=
  d.filter (fun p => p.1 ≠ k)

/-- The keys of a dictionary, in order. -/
def dictKeys (d : PyDict) : List String :=
  d.map (fun p => p.1)

/-- The user profile record bound into the prompts (spec section 3: name,
age, sex, weight, height, goals, country). Field values are carried as the
strings they render to. -/
structure Profile where
  name : String
  age : String
  sex : String
  weight : String
  height : String
  goals : String
  country : String
deriving DecidableEq

/-- Pydantic `model_dump()`: a fresh mapping of the profile fields. -/
def Profile.model_dump (p : Profile) : PyDict :=
  [("name", p.name), ("age", p.age), ("sex", p.sex), ("weight", p.weight),
   ("height", p.height), ("goals", p.goals), ("country", p.country)]

/-- One piece of a prompt template: literal text or a `{placeholder}`. -/
inductive TPart where
  | lit (s : String)
  | var (v : String)
deriving DecidableEq

/-- A role-tagged message template, as passed to
`ChatPromptTemplate.from_messages`. -/
abbrev MessageTemplate := String × List TPart

/-- Placeholders of a part list. -/
def varsOfParts : List TPart → List String
  | [] => []
  | .lit _ :: r => varsOfParts r
  | .var v :: r => v :: varsOfParts r

/-- Placeholders of a whole message list. -/
def varsOfMessages : List MessageTemplate → List String
  | [] => []
  | m :: r => varsOfParts m.2 ++ varsOfMessages r

/-- Modelled from the spec: template rendering (performed inside langchain
`ChatPromptTemplate`, which is not part of src/) substitutes every
placeholder and fails when a placeholder has no bound variable — the
PromptSpec invariant of spec section 3. -/
def formatParts (vars : PyDict) : List TPart → Except String String
  | [] => .ok ""
  | .lit s :: r =>
    match formatParts vars r with
    | .error e => .error e
    | .ok t => .ok (s ++ t)
  | .var v :: r =>
    match dictLookup vars v with
    | none => .error ("missing variable " ++ v)
    | some x =>
      match formatParts vars r with
      | .error e => .error e
      | .ok t => .ok (x ++ t)

/-- Render a message list to the single prompt string sent to the model:
each message as `role: text`, newline separated. -/
def formatMessages (vars : PyDict) : List MessageTemplate → Except String String
  | [] => .ok ""
  | (role, parts) :: r =>
    match formatParts vars parts with
    | .error e => .error e
    | .ok t =>
      match formatMessages vars r with
      | .error e => .error e
      | .ok rest => .ok (role ++ ": " ++ t ++ "\n" ++ rest)

/-- The chat message object the model client returns; `content` is its
text payload, and the object is distinct from a bare string. -/
structure AIMessage where
  content : String
deriving DecidableEq

/-- The external chat model: a prompt in, a message out, or a failure
(timeout, quota, malformed response) carried as the exception text. -/
abbrev ModelOracle := String → Except String AIMessage

/-- Values an embedded llm.py method hands back to its caller: a text
string, the raw message object, Python `None`, or the dictionary
`{"error": cause}`. -/
inductive PyRet where
  | text (s : String)
  | message (m : AIMessage)
  | noneVal
  | errDict (cause : String)
deriving DecidableEq

/-- Whether a returned value is a structured error value carrying a cause
to the caller. -/
def isErrorReturn : PyRet → Bool
  | .errDict _ => true
  | _ => false

/-- What one call leaves behind: the value returned to the caller and the
error text rendered to the UI via `st.error`, when any. -/
structure CallOutcome where
  ret : PyRet
  displayed : Option String
deriving DecidableEq

/-- Modelled from the spec: the Response Cache (the `st.cache_data`
decorator and SQLite LLM cache are outside src/). Entries are keyed by the
fully rendered prompt and stamped with their store time (spec section 3,
CacheKey/CacheEntry). -/
abbrev Cache := List (String × AIMessage × Nat)

/-- Time-to-live of cache entries, seconds (`ttl=3600` in the source). -/
def cacheTTL : Nat := 3600

/-- Modelled from the spec: cache lookup; an entry older than the TTL is
treated as a miss (spec section 4.2). -/
def cacheGet (c : Cache) (k : String) (now : Nat) : Option AIMessage :=
  match c.find? (fun e => e.1 == k) with
  | none => none
  | some (_, v, t) => if now - t ≤ cacheTTL then some v else none

/-- Modelled from the spec: cache store of a fresh successful response. -/
def cachePut (c : Cache) (k : String) (v : AIMessage) (now : Nat) : Cache :=
  (k, v, now) :: c

/-- The message templates of `render_llm`, transcribed from llm.py lines
24-38. -/
def renderLlmMessages : List MessageTemplate :=
  [("system",
    [.lit "You are a helpful health assistant whose job is to strictly provides workout regime, diet (based on their locale) and health advice based on the information provided by the human."]),
   ("human",
    [.lit "\n             - Name: ", .var "name",
     .lit "\n             - Age: ", .var "age",
     .lit "\n             - Sex: ", .var "sex",
     .lit "\n             - Weight: ", .var "weight",
     .lit "\n             - Height: ", .var "height",
     .lit "\n             - Goals: ", .var "goals",
     .lit "\n             - Country: ", .var "country",
     .lit "\n             "])]

/-- Embedding of `LLMHandler.render_llm` over the spec-modelled cache:
render the prompt from the bound input, consult the cache, on a miss
invoke the model once and store a success; any exception inside the try
block is caught, shown via `st.error` with the prefix of llm.py line 47,
and `None` is returned. The result carries the outcome, the cache after
the call, and the number of underlying model calls performed. -/
def renderLlmDispatch (oracle : ModelOracle) (c : Cache) (now : Nat)
    (inputData : PyDict) : CallOutcome × Cache × Nat :=
  match formatMessages inputData renderLlmMessages with
  | .error e =>
    (⟨.noneVal, some ("Error generating fitness plan: " ++ e)⟩, c, 0)
  | .ok prompt =>
    match cacheGet c prompt now with
    | some v => (⟨.message v, none⟩, c, 0)
    | none =>
      match oracle prompt with
      | .ok msg => (⟨.message msg, none⟩, cachePut c prompt msg now, 1)
      | .error e =>
        (⟨.noneVal, some ("Error generating fitness plan: " ++ e)⟩, c, 1)

/-- The whole `render_llm` call never lets an exception escape: the
try/except of llm.py lines 43-48 catches everything. -/
def render_llm (oracle : ModelOracle) (c : Cache) (now : Nat)
    (inputData : PyDict) : PyResult (CallOutcome × Cache × Nat) :=
  .normal (renderLlmDispatch oracle c now inputData)

/-- The message templates of `summarizer`, llm.py lines 53-56. -/
def summarizerMessages : List MessageTemplate :=
  [("system",
    [.lit "You are an expert text summarizer. Your job is to summarize the user text, while retaining as much information as possible."]),
   ("human", [.var "msg"])]

/-- Embedding of `LLMHandler.summarizer`: on success it returns
`response.content`, on failure it shows the error and returns `None`. -/
def summarizer (oracle : ModelOracle) (message : String) :
    PyResult (CallOutcome × Nat) :=
  .normal
    (match formatMessages [("msg", message)] summarizerMessages with
     | .error e =>
       (⟨.noneVal, some ("Error summarizing text: " ++ e)⟩, 0)
     | .ok prompt =>
       match oracle prompt with
       | .ok msg => (⟨.text msg.content, none⟩, 1)
       | .error e =>
         (⟨.noneVal, some ("Error summarizing text: " ++ e)⟩, 1))

/-- The message templates of `workout_planner`, llm.py lines 71-81. -/
def workoutPlannerMessages : List MessageTemplate :=
  [("system",
    [.lit "You are a workout planner. Your job is to generate a workout plan based on the user\x27s workout equipment."]),
   ("human",
    [.lit "Equipments: ", .var "msg",
     .lit "\n             - Name: ", .var "name",
     .lit "\n             - Age: ", .var "age",
     .lit "\n             - Sex: ", .var "sex",
     .lit "\n             - Weight: ", .var "weight",
     .lit "\n             - Height: ", .var "height",
     .lit "\n             - Goals: ", .var "goals",
     .lit "\n             "])]

/-- The variable set `workout_planner` binds into its prompt, transcribed
from llm.py lines 87-90: a copy of the dump, updated with
`msg = equipment`, with the `country` key deleted when present. -/
def workoutPlannerVars (equipment : String) (info : Profile) : PyDict :=
  let d := dictUpdate (info.model_dump) "msg" equipment
  if dictHasKey d "country" then dictDel d "country" else d

/-- Embedding of `LLMHandler.workout_planner`: build the bound variables,
render, invoke the model, return `response.content` on success; the
try/except of llm.py lines 86-96 catches everything. -/
def workout_planner (oracle : ModelOracle) (equipment : String)
    (info : Profile) : PyResult (CallOutcome × Nat) :=
  .normal
    (match formatMessages (workoutPlannerVars equipment info)
        workoutPlannerMessages with
     | .error e =>
       (⟨.noneVal, some ("Error generating workout plan: " ++ e)⟩, 0)
     | .ok prompt =>
       match oracle prompt with
       | .ok msg => (⟨.text msg.content, none⟩, 1)
       | .error e =>
         (⟨.noneVal, some ("Error generating workout plan: " ++ e)⟩, 1))

/-- Modelled from the spec: the Q&A task (`answerQuestion`) has no source
under src/; spec section 4.3 fixes its inputs as the full Profile plus the
query, with no fields stripped. -/
def answerQuestionVars (query : String) (p : Profile) : PyDict :=
  p.model_dump ++ [("query", query)]

/-- A heap of Python dictionary objects: addresses mapped to contents,
with a bump allocator. Used to state which objects a call mutates. -/
structure Heap where
  store : List (Nat × PyDict)
  next : Nat
deriving DecidableEq

/-- Read the dictionary at an address. -/
def Heap.get (h : Heap) (a : Nat) : Option PyDict :=
  (h.store.find? (fun p => p.1 == a)).map (fun p => p.2)

/-- Allocate a fresh dictionary, returning its address. -/
def Heap.alloc (h : Heap) (d : PyDict) : Nat × Heap :=
  (h.next, ⟨(h.next, d) :: h.store, h.next + 1⟩)

/-- Overwrite the dictionary at an address in place. -/
def Heap.set (h : Heap) (a : Nat) (d : PyDict) : Heap :=
  ⟨h.store.map (fun p => if p.1 = a then (a, d) else p), h.next⟩

/-- Heap state after `info.model_dump()` allocates its fresh mapping,
llm.py line 87. -/
def wpH1 (h0 : Heap) (info : Profile) : Heap :=
  (h0.alloc info.model_dump).2

/-- The mapping `.copy()` reads from the dump object. -/
def wpDumped (h0 : Heap) (info : Profile) : PyDict :=
  ((wpH1 h0 info).get (h0.alloc info.model_dump).1).getD []

/-- The address of the copy `info_copy`. -/
def wpCopyAddr (h0 : Heap) (info : Profile) : Nat :=
  ((wpH1 h0 info).alloc (wpDumped h0 info)).1

/-- Heap state after `.copy()` allocates `info_copy`. -/
def wpH2 (h0 : Heap) (info : Profile) : Heap :=
  ((wpH1 h0 info).alloc (wpDumped h0 info)).2

/-- Heap state after `info_copy.update({"msg": equipment})` mutates the
copy in place, llm.py line 88. -/
def wpH3 (h0 : Heap) (equipment : String) (info : Profile) : Heap :=
  (wpH2 h0 info).set (wpCopyAddr h0 info)
    (dictUpdate (((wpH2 h0 info).get (wpCopyAddr h0 info)).getD [])
      "msg" equipment)

/-- Heap state after `if "country" in info_copy: del info_copy["country"]`
mutates the copy in place, llm.py lines 89-90. -/
def wpH4 (h0 : Heap) (equipment : String) (info : Profile) : Heap :=
  if dictHasKey (((wpH3 h0 equipment info).get (wpCopyAddr h0 info)).getD [])
      "country" then
    (wpH3 h0 equipment info).set (wpCopyAddr h0 info)
      (dictDel (((wpH3 h0 equipment info).get (wpCopyAddr h0 info)).getD [])
        "country")
  else wpH3 h0 equipment info

/-- The object-level trace of `workout_planner` building its bound
variables, llm.py lines 87-90: `model_dump()` allocates a fresh mapping,
`.copy()` allocates another, and `update` / `del` mutate only that copy.
Returns the copy address, the heap after the call, and the mapping passed
to `chain.invoke`. -/
def workoutPlannerTrace (h0 : Heap) (equipment : String) (info : Profile) :
    Nat × Heap × PyDict :=
  (wpCopyAddr h0 info, wpH4 h0 equipment info,
    ((wpH4 h0 equipment info).get (wpCopyAddr h0 info)).getD [])

/-- The request `google_search_tool` sends, transcribed from the keyword
arguments of tools.py lines 21-28. -/
structure SearchRequest where
  engine : String
  q : String
  num : Nat
  lang : String
  country : String
deriving DecidableEq

/-- The external search provider: a request in, a raw result list (a list
of string-keyed records) out, or a failure carried as exception text. -/
abbrev SearchProvider := SearchRequest → Except String (List PyDict)

/-- The request built for a query in `google_search_tool`. -/
def googleSearchRequest (query : String) : SearchRequest :=
  ⟨"google", query, 5, "en", "US"⟩

/-- Embedding of `tools.google_search_tool`: it calls the provider and
returns whatever comes back; there is no try/except in the source, so a
provider failure propagates out of the function as a raised exception. -/
def google_search_tool (provider : SearchProvider) (query : String) :
    PyResult (List PyDict) :=
  match provider (googleSearchRequest query) with
  | .ok r => .normal r
  | .error e => .raised e

/-- An agent-registered tool: a name and the string-to-string invocation
the executor runs. -/
structure AgentTool where
  name : String
  fn : String → String

/-- The observation text the calculator tool produces inside the agent:
the stringified value, or the returned exception text. -/
def calcObservation (s : String) : String :=
  match calculator s with
  | .normal (.value (.int n)) => toString n
  | .normal (.value (.str t)) => t
  | .normal (.value (.bool b)) => cond b "True" "False"
  | .normal (.value (.obj n)) => "<object " ++ n ++ ">"
  | .normal (.evalError e) => e
  | .raised e => e

/-- The calculator as the agent tool named by its function name. -/
def calculatorTool : AgentTool :=
  ⟨"calculator", calcObservation⟩

/-- The name the `@tool` decorator gives the search tool. -/
def googleSearchToolName : String := "google_search_tool"

/-- The tool list `search_agent` registers, llm.py line 124. -/
def searchAgentTools : List AgentTool := [calculatorTool]

/-- The registered tool names, llm.py line 125. -/
def searchAgentToolNames : List String :=
  searchAgentTools.map (fun t => t.name)

/-- One executed step of the agent transcript: the tool acted on, its
input, and the observation produced. -/
structure AgentStep where
  action : String
  actionInput : String
  observation : String
deriving DecidableEq

/-- What the model decides at each thinking step, given the transcript so
far: act on a named tool, or emit the final answer. -/
inductive ModelDecision where
  | act (toolName : String) (input : String)
  | finish (answer : String)
deriving DecidableEq

/-- The model driving the agent, abstracted as a function of the
accumulated transcript. -/
abbrev AgentOracle := List AgentStep → ModelDecision

/-- How an agent run ends. -/
inductive AgentOutcome where
  | done (answer : String)
  | budgetExceeded
  | toolUnresolved (toolName : String)
deriving DecidableEq

/-- Modelled from the spec: the ReAct executor loop (langchain
`create_react_agent` / `AgentExecutor`, outside src/), per spec section
4.5: think, resolve the named tool, invoke it, append the observation,
repeat; a final answer ends the run, an explicitly configured step budget
bounds it, and exhausting the budget is the StepBudgetExceeded failure.
Returns the outcome, the final transcript, and the number of model calls
made. -/
def runAgentLoop (tools : List AgentTool) (oracle : AgentOracle) :
    Nat → List AgentStep → AgentOutcome × List AgentStep × Nat
  | 0, tr => (.budgetExceeded, tr, 0)
  | b + 1, tr =>
    match oracle tr with
    | .finish a => (.done a, tr, 1)
    | .act toolName input =>
      match tools.find? (fun t => t.name == toolName) with
      | none => (.toolUnresolved toolName, tr, 1)
      | some t =>
        let step : AgentStep := ⟨toolName, input, t.fn input⟩
        let r := runAgentLoop tools oracle b (tr ++ [step])
        (r.1, r.2.1, r.2.2 + 1)

/-- Embedding of `LLMHandler.search_agent`: run the executor over the
registered tools from an empty transcript; a final answer is returned as
`response["output"]`, and any executor failure is caught by the
try/except of llm.py lines 138-142 and returned as `{"error": str(e)}`. -/
def search_agent (model : String → AgentOracle) (budget : Nat)
    (query : String) : PyResult PyRet :=
  .normal
    (match runAgentLoop searchAgentTools (model query) budget [] with
     | (.done a, _, _) => .text a
     | (.budgetExceeded, _, _) => .errDict "StepBudgetExceeded"
     | (.toolUnresolved n, _, _) => .errDict (n ++ " is not a valid tool"))

/-- Whether a returned value is a bare text string. -/
def retIsText : PyRet → Bool
  | .text _ => true
  | _ => false

/-- The example profile of spec section 8. -/
def ana : Profile :=
  ⟨"Ana", "30", "F", "60", "165", "lose fat", "PH"⟩

/-- The dumped mapping of the example profile. -/
def anaDump : PyDict := ana.model_dump

/-- The example dump with the `country` binding absent. -/
def anaNoCountry : PyDict := dictDel anaDump "country"

/-- The prompt `render_llm` renders for the example profile. -/
def anaPrompt : String :=
  (formatMessages anaDump renderLlmMessages).toOption.getD ""

/-- A model that always answers with the same plan message. -/
def planOracle : ModelOracle := fun _ => .ok ⟨"PLAN TEXT"⟩

/-- A model whose every invocation fails with a quota error. -/
def quotaOracle : ModelOracle := fun _ => .error "429 quota exceeded"

/-- A search provider that fails with a connection error. -/
def failingProvider : SearchProvider :=
  fun _ => .error "SerpAPI connection error"

/-- A search provider that returns two records. -/
def twoHitProvider : SearchProvider :=
  fun _ => .ok [[("title", "a"), ("link", "u")], [("title", "b")]]

/-- An agent model that acts on the calculator forever. -/
def actForeverModel (_query : String) : AgentOracle :=
  fun _ => .act "calculator" "1+1"

/-- An agent model that uses the calculator once and then finishes. -/
def oneShotModel (_query : String) : AgentOracle :=
  fun tr => if tr.isEmpty then .act "calculator" "2+2" else .finish "4"

/-- A one-entry heap owned by the caller before `workout_planner` runs. -/
def demoHeap : Heap := ⟨[(0, [("x", "1")])], 1⟩

/-- C1 counterexample: the calculator as written does not turn every
malformed expression into a caught evaluation error. The input "exit()"
evaluates the `exit` builtin, which raises `SystemExit` — outside the
`Exception` class the handler catches — so the call crashes with an
uncaught exception; and the quoted-string input evaluates to a plain
non-error value. -/
theorem c1_counterexample_eval_escapes :
    calculator "exit()" = .raised "SystemExit" ∧
    calculator "\x27hello\x27" = .normal (.value (.str "hello")) := by
  exact ⟨by decide, by decide⟩

/-- C1 (amended): the calculator applied to "2+2" returns 4; applied to
"not-math" it parses the `not` keyword, fails with NameError on `math`,
and the handler returns that text; in general every `Exception`-class
evaluation failure is caught and returned as its message and every
successful evaluation returns its value — but only the `Exception` class
is caught, and an exception outside it propagates out of the function. -/
theorem c1_calculator_behavior :
    calculator "2+2" = .normal (.value (.int 4)) ∧
    calculator "not-math"
      = .normal (.evalError ("name \x27math\x27 is not defined")) ∧
    (∀ exp v, pyEval exp = .ok v → calculator exp = .normal (.value v)) ∧
    (∀ exp e, pyEval exp = .error e → e.catchable = true →
      calculator exp = .normal (.evalError e.message)) ∧
    (∀ exp e, pyEval exp = .error e → e.catchable = false →
      calculator exp = .raised e.message) := by
  refine ⟨by decide, by decide, ?_, ?_, ?_⟩
  · intro exp v h
    unfold calculator
    rw [h]
  · intro exp e h hc
    unfold calculator
    simp only [h]
    rw [if_pos hc]
  · intro exp e h hc
    unfold calculator
    simp only [h]
    rw [if_neg (by simp [hc])]

/-- Witness for C1: the general caught and successful branches exercised
at concrete inputs. -/
theorem c1_calculator_behavior_witness :
    calculator "1*x"
      = .normal (.evalError ("name \x27x\x27 is not defined")) ∧
    calculator "40+2" = .normal (.value (.int 42)) :=
  ⟨c1_calculator_behavior.2.2.2.1 "1*x" (nameError "x") rfl (by decide),
   c1_calculator_behavior.2.2.1 "40+2" (.int 42) rfl⟩

/-- Every error `formatParts` produces names a variable that is absent
from the bound set. -/
theorem formatParts_error_shape (vars : PyDict) :
    ∀ parts e, formatParts vars parts = .error e →
      ∃ w, dictLookup vars w = none ∧ e = "missing variable " ++ w := by
  intro parts
  induction parts with
  | nil => intro e h; simp [formatParts] at h
  | cons p r ih =>
    intro e h
    cases p with
    | lit s =>
      unfold formatParts at h
      cases hr : formatParts vars r with
      | error e2 => rw [hr] at h; cases h; exact ih e hr
      | ok t => rw [hr] at h; cases h
    | var v =>
      unfold formatParts at h
      cases hl : dictLookup vars v with
      | none => rw [hl] at h; cases h; exact ⟨v, hl, rfl⟩
      | some x =>
        rw [hl] at h
        cases hr : formatParts vars r with
        | error e2 => rw [hr] at h; cases h; exact ih e hr
        | ok t => rw [hr] at h; cases h

/-- A part list with an unbound placeholder fails to format, with an error
naming some unbound variable. -/
theorem formatParts_missing (vars : PyDict) :
    ∀ parts v, v ∈ varsOfParts parts → dictLookup vars v = none →
      ∃ w, dictLookup vars w = none ∧
        formatParts vars parts = .error ("missing variable " ++ w) := by
  intro parts
  induction parts with
  | nil => intro v hv; simp [varsOfParts] at hv
  | cons p r ih =>
    intro v hv hmiss
    cases p with
    | lit s =>
      simp only [varsOfParts] at hv
      obtain ⟨w, hw, herr⟩ := ih v hv hmiss
      exact ⟨w, hw, by unfold formatParts; rw [herr]⟩
    | var u =>
      simp only [varsOfParts, List.mem_cons] at hv
      cases hl : dictLookup vars u with
      | none => exact ⟨u, hl, by unfold formatParts; rw [hl]⟩
      | some x =>
        have hvr : v ∈ varsOfParts r := by
          rcases hv with hv | hv
          · rw [hv] at hmiss; rw [hmiss] at hl; cases hl
          · exact hv
        obtain ⟨w, hw, herr⟩ := ih v hvr hmiss
        exact ⟨w, hw, by unfold formatParts; rw [hl, herr]⟩

/-- A message list with an unbound placeholder fails to format, with an
error naming some unbound variable. -/
theorem formatMessages_missing (vars : PyDict) :
    ∀ ms v, v ∈ varsOfMessages ms → dictLookup vars v = none →
      ∃ w, dictLookup vars w = none ∧
        formatMessages vars ms = .error ("missing variable " ++ w) := by
  intro ms
  induction ms with
  | nil => intro v hv; simp [varsOfMessages] at hv
  | cons m r ih =>
    intro v hv hmiss
    simp only [varsOfMessages, List.mem_append] at hv
    cases hp : formatParts vars m.2 with
    | error e =>
      obtain ⟨w, hw, hshape⟩ := formatParts_error_shape vars m.2 e hp
      refine ⟨w, hw, ?_⟩
      unfold formatMessages
      rw [← hshape, hp]
    | ok t =>
      have hvr : v ∈ varsOfMessages r := by
        rcases hv with hv | hv
        · obtain ⟨w, hw, herr⟩ := formatParts_missing vars m.2 v hv hmiss
          rw [herr] at hp; cases hp
        · exact hv
      obtain ⟨w, hw, herr⟩ := ih v hvr hmiss
      refine ⟨w, hw, ?_⟩
      unfold formatMessages
      rw [hp, herr]

/-- C4: a dispatch whose bound input set lacks a variable required by the
selected template fails on the error path naming a missing variable,
performs zero model calls, and substitutes no default: the caller gets the
error outcome, not a rendered text. -/
theorem c4_missing_variable_fails_fast (oracle : ModelOracle) (c : Cache)
    (now : Nat) (inputData : PyDict) (v : String)
    (hv : v ∈ varsOfMessages renderLlmMessages)
    (hmiss : dictLookup inputData v = none) :
    ∃ w, dictLookup inputData w = none ∧
      render_llm oracle c now inputData =
        .normal (⟨PyRet.noneVal,
          some ("Error generating fitness plan: " ++
            ("missing variable " ++ w))⟩, c, 0) := by
  obtain ⟨w, hw, herr⟩ :=
    formatMessages_missing inputData renderLlmMessages v hv hmiss
  refine ⟨w, hw, ?_⟩
  unfold render_llm renderLlmDispatch
  rw [herr]

/-- Witness for C4: the example profile dump with `country` removed makes
`render_llm` fail fast with zero model calls. -/
theorem c4_missing_variable_fails_fast_witness :
    ∃ w, dictLookup anaNoCountry w = none ∧
      render_llm planOracle [] 0 anaNoCountry =
        .normal (⟨PyRet.noneVal,
          some ("Error generating fitness plan: " ++
            ("missing variable " ++ w))⟩, [], 0) :=
  c4_missing_variable_fails_fast planOracle [] 0 anaNoCountry "country"
    (by decide) (by decide)

/-- C5 counterexample: with a failing model, `render_llm` hands the caller
Python `None` — a value that is not a structured error and carries no
cause — so the claim that a `ModelInvocationError` carrying the cause is
surfaced to the caller is false on the code. -/
theorem c5_counterexample_none_to_caller :
    (renderLlmDispatch quotaOracle [] 0 anaDump).1.ret = PyRet.noneVal ∧
    isErrorReturn (renderLlmDispatch quotaOracle [] 0 anaDump).1.ret
      = false ∧
    (renderLlmDispatch quotaOracle [] 0 anaDump).1.displayed
      = some "Error generating fitness plan: 429 quota exceeded" := by
  refine ⟨?_, ?_, ?_⟩ <;> rfl

/-- C5 (amended): when the model invocation fails, the handler catches the
exception — nothing propagates past the function — displays an error
message carrying the underlying cause through the UI, and returns `None`
to the caller. -/
theorem c5_model_failure_caught (oracle : ModelOracle) (c : Cache)
    (now : Nat) (inputData : PyDict) (prompt cause : String)
    (hfmt : formatMessages inputData renderLlmMessages = .ok prompt)
    (hmiss : cacheGet c prompt now = none)
    (hfail : oracle prompt = .error cause) :
    render_llm oracle c now inputData =
      .normal (⟨PyRet.noneVal,
        some ("Error generating fitness plan: " ++ cause)⟩, c, 1) := by
  unfold render_llm renderLlmDispatch
  simp only [hfmt, hmiss, hfail]

/-- Witness for C5: a quota failure on the example profile is caught and
returned as the displayed-error-and-None outcome. -/
theorem c5_model_failure_caught_witness :
    render_llm quotaOracle [] 0 anaDump =
      .normal (⟨PyRet.noneVal,
        some ("Error generating fitness plan: " ++ "429 quota exceeded")⟩,
        [], 1) :=
  c5_model_failure_caught quotaOracle [] 0 anaDump anaPrompt
    "429 quota exceeded" rfl rfl rfl

/-- A fresh successful entry is a hit while its age is within the TTL. -/
theorem cacheGet_put_within (c : Cache) (k : String) (v : AIMessage)
    (t now : Nat) (h : now - t ≤ cacheTTL) :
    cacheGet (cachePut c k v t) k now = some v := by
  simp [cacheGet, cachePut, List.find?, h]

/-- A fresh successful entry older than the TTL is a miss. -/
theorem cacheGet_put_expired (c : Cache) (k : String) (v : AIMessage)
    (t now : Nat) (h : cacheTTL < now - t) :
    cacheGet (cachePut c k v t) k now = none := by
  simp only [cacheGet, cachePut, List.find?, beq_self_eq_true]
  rw [if_neg (by omega)]

/-- C3: two `render_llm` calls with identical inputs inside the TTL window
return the identical value while the model is invoked exactly once in
total, and a call after the entry has outlived the TTL is a miss that
performs exactly one fresh model call. -/
theorem c3_render_llm_cache_ttl (oracle : ModelOracle) (c0 : Cache)
    (inputData : PyDict) (prompt : String) (msg : AIMessage) (t0 t1 t2 : Nat)
    (hfmt : formatMessages inputData renderLlmMessages = .ok prompt)
    (hmiss : cacheGet c0 prompt t0 = none)
    (hok : oracle prompt = .ok msg)
    (hin : t1 - t0 ≤ cacheTTL)
    (hout : cacheTTL < t2 - t0) :
    (renderLlmDispatch oracle c0 t0 inputData).2.2 = 1 ∧
    (renderLlmDispatch oracle
        (renderLlmDispatch oracle c0 t0 inputData).2.1 t1 inputData).1
      = (renderLlmDispatch oracle c0 t0 inputData).1 ∧
    (renderLlmDispatch oracle
        (renderLlmDispatch oracle c0 t0 inputData).2.1 t1 inputData).2.2 = 0 ∧
    (renderLlmDispatch oracle
        (renderLlmDispatch oracle c0 t0 inputData).2.1 t2 inputData).2.2 = 1 := by
  have h1 : renderLlmDispatch oracle c0 t0 inputData
      = (⟨PyRet.message msg, none⟩, cachePut c0 prompt msg t0, 1) := by
    unfold renderLlmDispatch
    simp only [hfmt, hmiss, hok]
  have h2 : renderLlmDispatch oracle (cachePut c0 prompt msg t0) t1 inputData
      = (⟨PyRet.message msg, none⟩, cachePut c0 prompt msg t0, 0) := by
    unfold renderLlmDispatch
    simp only [hfmt, cacheGet_put_within c0 prompt msg t0 t1 hin]
  have h3 : renderLlmDispatch oracle (cachePut c0 prompt msg t0) t2 inputData
      = (⟨PyRet.message msg, none⟩,
          cachePut (cachePut c0 prompt msg t0) prompt msg t2, 1) := by
    unfold renderLlmDispatch
    simp only [hfmt, cacheGet_put_expired c0 prompt msg t0 t2 hout, hok]
  rw [h1]
  refine ⟨rfl, ?_, ?_, ?_⟩
  · rw [h2]
  · rw [h2]
  · rw [h3]

/-- Witness for C3: the example profile against a deterministic model,
first call at time 0, a hit at time 100, a fresh call at time 4000. -/
theorem c3_render_llm_cache_ttl_witness :
    (renderLlmDispatch planOracle [] 0 anaDump).2.2 = 1 ∧
    (renderLlmDispatch planOracle
        (renderLlmDispatch planOracle [] 0 anaDump).2.1 100 anaDump).1
      = (renderLlmDispatch planOracle [] 0 anaDump).1 ∧
    (renderLlmDispatch planOracle
        (renderLlmDispatch planOracle [] 0 anaDump).2.1 100 anaDump).2.2 = 0 ∧
    (renderLlmDispatch planOracle
        (renderLlmDispatch planOracle [] 0 anaDump).2.1 4000 anaDump).2.2 = 1 :=
  c3_render_llm_cache_ttl planOracle [] anaDump anaPrompt ⟨"PLAN TEXT"⟩
    0 100 4000 rfl rfl rfl (by decide) (by decide)

/-- C8: a successful `generatePlan` call does not return text: the source
returns the raw chat message object produced by `chain.invoke`, not its
`content` string, despite the declared `-> str` return type. The claim
that every successful call returns text fails here. -/
theorem c8_generate_plan_returns_message_object :
    (renderLlmDispatch planOracle [] 0 anaDump).1.ret
      = PyRet.message ⟨"PLAN TEXT"⟩ ∧
    retIsText (renderLlmDispatch planOracle [] 0 anaDump).1.ret = false := by
  exact ⟨rfl, rfl⟩

/-- C7: `workout_planner` binds the profile minus `country` plus the
equipment variable `msg`, while the Q&A task binds every profile field
plus the query, stripping nothing. -/
theorem c7_workout_omits_country_qa_binds_all (equipment query : String)
    (p : Profile) :
    dictKeys (workoutPlannerVars equipment p)
      = ["name", "age", "sex", "weight", "height", "goals", "msg"] ∧
    (dictKeys (workoutPlannerVars equipment p)).contains "country" = false ∧
    dictKeys (answerQuestionVars query p)
      = ["name", "age", "sex", "weight", "height", "goals", "country",
         "query"] := by
  refine ⟨rfl, rfl, rfl⟩

/-- Finding on a cons whose head satisfies the predicate. -/
theorem pd_find?_cons_true (p : Nat × PyDict → Bool) (x : Nat × PyDict)
    (l : List (Nat × PyDict)) (h : p x = true) :
    (x :: l).find? p = some x :=
  List.find?_cons_of_pos l h

/-- Finding on a cons whose head fails the predicate. -/
theorem pd_find?_cons_false (p : Nat × PyDict → Bool) (x : Nat × PyDict)
    (l : List (Nat × PyDict)) (h : p x = false) :
    (x :: l).find? p = l.find? p :=
  List.find?_cons_of_neg l (by simp [h])

/-- Looking up one key is unaffected by overwriting the entry of a
different key. -/
theorem find?_set_ne (l : List (Nat × PyDict)) (b : Nat) (d : PyDict)
    (a : Nat) (hab : a ≠ b) :
    (l.map (fun p => if p.1 = b then (b, d) else p)).find?
        (fun p => p.1 == a)
      = l.find? (fun p => p.1 == a) := by
  induction l with
  | nil => rfl
  | cons x r ih =>
    simp only [List.map_cons]
    by_cases hx : x.1 = b
    · rw [if_pos hx]
      rw [pd_find?_cons_false (fun p => p.1 == a) (b, d) _
        (by simpa using Ne.symm hab)]
      rw [pd_find?_cons_false (fun p => p.1 == a) x _
        (by simpa [hx] using Ne.symm hab)]
      exact ih
    · rw [if_neg hx]
      by_cases hxa : x.1 = a
      · rw [pd_find?_cons_true (fun p => p.1 == a) x _ (by simpa using hxa),
          pd_find?_cons_true (fun p => p.1 == a) x _ (by simpa using hxa)]
      · rw [pd_find?_cons_false (fun p => p.1 == a) x _ (by simpa using hxa),
          pd_find?_cons_false (fun p => p.1 == a) x _ (by simpa using hxa)]
        exact ih

/-- Overwriting the entry of a present key makes lookups at that key see
the new contents. -/
theorem find?_set_self (l : List (Nat × PyDict)) (b : Nat) (d : PyDict)
    (h : (l.find? (fun p => p.1 == b)).isSome = true) :
    (l.map (fun p => if p.1 = b then (b, d) else p)).find?
        (fun p => p.1 == b) = some (b, d) := by
  induction l with
  | nil => simp [List.find?] at h
  | cons x r ih =>
    simp only [List.map_cons]
    by_cases hx : x.1 = b
    · rw [if_pos hx]
      rw [pd_find?_cons_true (fun p => p.1 == b) (b, d) _ (by simp)]
    · rw [if_neg hx]
      rw [pd_find?_cons_false (fun p => p.1 == b) x _ (by simpa using hx)]
      rw [pd_find?_cons_false (fun p => p.1 == b) x _ (by simpa using hx)] at h
      exact ih h

/-- Dictionaries at other addresses are untouched by `Heap.set`. -/
theorem heap_get_set_ne (h : Heap) (b : Nat) (d : PyDict) (a : Nat)
    (hab : a ≠ b) : (h.set b d).get a = h.get a := by
  simp only [Heap.set, Heap.get]
  rw [find?_set_ne h.store b d a hab]

/-- An address already present keeps its contents across an allocation. -/
theorem heap_get_alloc_lt (h : Heap) (d : PyDict) (a : Nat)
    (ha : a < h.next) : (h.alloc d).2.get a = h.get a := by
  simp only [Heap.alloc, Heap.get]
  rw [pd_find?_cons_false (fun p => p.1 == a) (h.next, d) _
    (by simpa using Ne.symm (by omega : a ≠ h.next))]

/-- A freshly allocated dictionary reads back as allocated. -/
theorem heap_get_alloc_self (h : Heap) (d : PyDict) :
    (h.alloc d).2.get (h.alloc d).1 = some d := by
  simp only [Heap.alloc, Heap.get]
  rw [pd_find?_cons_true (fun p => p.1 == h.next) (h.next, d) _ (by simp)]
  rfl

/-- Overwriting a present address reads back the new contents. -/
theorem heap_get_set_self (h : Heap) (b : Nat) (d : PyDict)
    (hb : (h.get b).isSome = true) : (h.set b d).get b = some d := by
  simp only [Heap.set, Heap.get]
  rw [find?_set_self h.store b d (by
    simp only [Heap.get] at hb
    simpa using hb)]
  rfl


/-- The dump object reads back the dumped profile mapping. -/
theorem wpDumped_eq (h0 : Heap) (info : Profile) :
    wpDumped h0 info = info.model_dump := by
  unfold wpDumped wpH1
  rw [heap_get_alloc_self]
  rfl

/-- The copy address is the second fresh address. -/
theorem wpCopyAddr_eq (h0 : Heap) (info : Profile) :
    wpCopyAddr h0 info = h0.next + 1 := rfl

/-- After the in-place update, the copy holds the dump plus `msg`. -/
theorem wpH3_get_copy (h0 : Heap) (equipment : String) (info : Profile) :
    (wpH3 h0 equipment info).get (wpCopyAddr h0 info)
      = some (dictUpdate info.model_dump "msg" equipment) := by
  have h2get : (wpH2 h0 info).get (wpCopyAddr h0 info)
      = some (wpDumped h0 info) := heap_get_alloc_self _ _
  unfold wpH3
  rw [heap_get_set_self _ _ _ (by rw [h2get]; rfl), h2get]
  rw [wpDumped_eq]
  rfl

/-- C9: the objects owned by the caller survive a `workout_planner` call
unchanged:
every dictionary that existed before the call reads back identically
afterwards — the `country` deletion happens on the freshly copied dump
only — and the mapping handed to the model chain is exactly the
copy-based variable set. -/
theorem c9_workout_planner_frame (h0 : Heap) (equipment : String)
    (info : Profile) (a : Nat) (ha : a < h0.next) :
    (workoutPlannerTrace h0 equipment info).2.1.get a = h0.get a ∧
    (workoutPlannerTrace h0 equipment info).2.2
      = workoutPlannerVars equipment info := by
  have hca : a ≠ wpCopyAddr h0 info := by
    rw [wpCopyAddr_eq]; omega
  have hframe3 : (wpH3 h0 equipment info).get a = h0.get a := by
    unfold wpH3
    rw [heap_get_set_ne _ _ _ _ hca]
    unfold wpH2
    rw [heap_get_alloc_lt _ _ _ (by
      show a < h0.next + 1
      omega)]
    unfold wpH1
    exact heap_get_alloc_lt h0 _ a ha
  have hget3 := wpH3_get_copy h0 equipment info
  constructor
  · show (wpH4 h0 equipment info).get a = h0.get a
    unfold wpH4
    split
    · rw [heap_get_set_ne _ _ _ _ hca]
      exact hframe3
    · exact hframe3
  · show ((wpH4 h0 equipment info).get (wpCopyAddr h0 info)).getD []
      = workoutPlannerVars equipment info
    unfold wpH4 workoutPlannerVars
    rw [hget3]
    by_cases hc :
        dictHasKey (dictUpdate info.model_dump "msg" equipment) "country"
    · rw [if_pos (by exact hc), if_pos (by exact hc)]
      rw [heap_get_set_self _ _ _ (by rw [hget3]; rfl)]
      rfl
    · rw [if_neg (by exact hc), if_neg (by exact hc)]
      rw [hget3]
      rfl

/-- Witness for C9: on a one-entry caller heap, address 0 reads back
unchanged after the call and the bound mapping is the copy-based set. -/
theorem c9_workout_planner_frame_witness :
    (workoutPlannerTrace demoHeap "bands" ana).2.1.get 0 = demoHeap.get 0 ∧
    (workoutPlannerTrace demoHeap "bands" ana).2.2
      = workoutPlannerVars "bands" ana :=
  c9_workout_planner_frame demoHeap "bands" ana 0 (by decide)

/-- The agent loop performs at most `budget` model calls. -/
theorem runAgentLoop_calls_le (tools : List AgentTool)
    (oracle : AgentOracle) :
    ∀ (b : Nat) (tr : List AgentStep),
      (runAgentLoop tools oracle b tr).2.2 ≤ b := by
  intro b
  induction b with
  | zero => intro tr; exact Nat.le_refl 0
  | succ n ih =>
    intro tr
    unfold runAgentLoop
    split
    · exact Nat.succ_le_succ (Nat.zero_le n)
    · split
      · exact Nat.succ_le_succ (Nat.zero_le n)
      · exact Nat.succ_le_succ (ih _)

/-- A model that keeps acting on the calculator exhausts any budget. -/
theorem runAgentLoop_exhausts (oracle : AgentOracle)
    (h : ∀ tr, ∃ input, oracle tr = .act "calculator" input) :
    ∀ (b : Nat) (tr : List AgentStep),
      (runAgentLoop searchAgentTools oracle b tr).1
        = AgentOutcome.budgetExceeded := by
  intro b
  induction b with
  | zero => intro tr; rfl
  | succ n ih =>
    intro tr
    obtain ⟨i, hi⟩ := h tr
    unfold runAgentLoop
    rw [hi]
    exact ih (tr ++ [⟨"calculator", i, calculatorTool.fn i⟩])

/-- C2: for every query and model behavior, the agent loop performs at
most the configured number of steps — it is a terminating function of its
budget — and a model that never produces a final answer makes
`search_agent` return the step-budget-exceeded error value rather than
looping forever. -/
theorem c2_agent_step_budget (model : String → AgentOracle) (budget : Nat)
    (query : String) :
    (runAgentLoop searchAgentTools (model query) budget []).2.2 ≤ budget ∧
    ((∀ tr, ∃ input, model query tr = .act "calculator" input) →
      search_agent model budget query
        = .normal (.errDict "StepBudgetExceeded")) := by
  constructor
  · exact runAgentLoop_calls_le searchAgentTools (model query) budget []
  · intro h
    have hx := runAgentLoop_exhausts (model query) h budget []
    unfold search_agent
    rcases hr : runAgentLoop searchAgentTools (model query) budget []
      with ⟨o, tr2, n⟩
    rw [hr] at hx
    simp only [] at hx
    rw [hx]

/-- Witness for C2: a model that always acts exhausts a budget of 2 and
the agent returns the step-budget-exceeded error value. -/
theorem c2_agent_step_budget_witness :
    (runAgentLoop searchAgentTools (actForeverModel "q") 2 []).2.2 ≤ 2 ∧
    search_agent actForeverModel 2 "q"
      = .normal (.errDict "StepBudgetExceeded") :=
  ⟨(c2_agent_step_budget actForeverModel 2 "q").1,
   (c2_agent_step_budget actForeverModel 2 "q").2 (fun _ => ⟨"1+1", rfl⟩)⟩

/-- Every step the loop executes over the registered tool list acts on the
calculator: the only registered tool. -/
theorem runAgentLoop_actions_calculator (oracle : AgentOracle) :
    ∀ (b : Nat) (tr : List AgentStep),
      (∀ s ∈ tr, s.action = "calculator") →
      ∀ s ∈ (runAgentLoop searchAgentTools oracle b tr).2.1,
        s.action = "calculator" := by
  intro b
  induction b with
  | zero => intro tr h; exact h
  | succ n ih =>
    intro tr h
    unfold runAgentLoop
    split
    · exact h
    · rename_i name input ho
      split
      · exact h
      · rename_i t hf
        have hname : name = "calculator" := by
          simp only [searchAgentTools, List.find?_singleton] at hf
          split at hf
          · next hcond => exact (eq_of_beq hcond).symm
          · cases hf
        refine ih (tr ++ [⟨name, input, t.fn input⟩]) ?_
        intro s hs
        rcases List.mem_append.mp hs with hs | hs
        · exact h s hs
        · rw [List.mem_singleton] at hs
          rw [hs]
          exact hname

/-- C10: the agent is constructed over exactly one registered tool, the
calculator; the search tool name is not registered, and consequently every
step executed in any run acts on the calculator, never on web search. -/
theorem c10_agent_registers_only_calculator (model : String → AgentOracle)
    (budget : Nat) (query : String) :
    searchAgentToolNames = ["calculator"] ∧
    searchAgentToolNames.contains googleSearchToolName = false ∧
    ∀ s ∈ (runAgentLoop searchAgentTools (model query) budget []).2.1,
      s.action = "calculator" := by
  refine ⟨rfl, by decide, ?_⟩
  exact runAgentLoop_actions_calculator (model query) budget []
    (fun s hs => absurd hs (List.not_mem_nil s))

/-- Witness for C10: in a concrete run that uses a tool once, the executed
step belongs to the transcript and acts on the calculator. -/
theorem c10_agent_registers_only_calculator_witness :
    (⟨"calculator", "2+2", "4"⟩ : AgentStep)
        ∈ (runAgentLoop searchAgentTools (oneShotModel "q") 3 []).2.1 ∧
    (⟨"calculator", "2+2", "4"⟩ : AgentStep).action = "calculator" :=
  ⟨by decide,
   (c10_agent_registers_only_calculator oneShotModel 3 "q").2.2
     ⟨"calculator", "2+2", "4"⟩ (by decide)⟩

/-- C6 (code defect): the search tool asks the provider for 5 results but
passes the provider response through unshaped — a 2-record response comes
back as 2 records — and a provider error propagates out as an uncaught
exception instead of any structured search-unavailable failure. -/
theorem c6_search_tool_unhandled_error :
    google_search_tool failingProvider "best gyms"
      = .raised "SerpAPI connection error" ∧
    (googleSearchRequest "best gyms").num = 5 ∧
    google_search_tool twoHitProvider "best gyms"
      = .normal [[("title", "a"), ("link", "u")], [("title", "b")]] :=
  ⟨rfl, rfl, rfl⟩
